import Mathlib

/-!
Verification of the BMP280 I2C driver example (bmp280_i2c.c).

The development shallowly embeds the drivers pure computational core:
the fixed-point compensation pipeline (bmp280_convert,
bmp280_convert_temp, bmp280_convert_pressure), the calibration decoder
(bmp280_get_calib_params), the raw-sample decoder (bmp280_read_raw),
the register-map constants, and the two configuration writes issued by
bmp280_init.  Signed 32-bit C values are represented as Int together
with an explicit twos-complement wraparound function; unsigned 32-bit
values are represented as Nat with explicit reduction mod 2^32.
C arithmetic right shift on a signed value is floor division by a
power of two, which is exactly Lean Int division by a positive
literal.
-/

/-- Twos-complement wraparound of an integer into the signed 32-bit
range, modelling C int32_t overflow behaviour. -/
def wrap32 (x : Int) : Int := (x + 2147483648) % 4294967296 - 2147483648

/-- Arithmetic (sign-preserving) right shift of a signed value by n
bits: floor division by 2 ^ n, as performed by the C compiler for the
target on int32_t. -/
def asr (x : Int) (n : Nat) : Int := x / 2 ^ n

/-- C cast of a signed 32-bit value to uint32_t (reduction mod 2^32). -/
def toU32 (x : Int) : Nat := (x % 4294967296).toNat

/-- C cast of an unsigned 32-bit value to int32_t. -/
def toI32 (n : Nat) : Int := wrap32 n

/-- C cast of an unsigned 16-bit pattern to the int16_t value with the
same representation. -/
def toI16 (n : Nat) : Int := ((n : Int) + 32768) % 65536 - 32768

/-- uint32_t subtraction (mod 2^32), for operands below 2^32. -/
def u32sub (a b : Nat) : Nat := (a + 4294967296 - b) % 4294967296

/-- uint32_t division.  C leaves division by zero undefined, so the
embedding returns none in that case and the quotient otherwise. -/
def u32div (a b : Nat) : Option Nat := if b = 0 then none else some (a / b)

/-- struct bmp280_calib_param: the twelve calibration coefficients.
uint16_t fields are Nat, int16_t fields are Int. -/
structure bmp280_calib_param where
  dig_t1 : Nat
  dig_t2 : Int
  dig_t3 : Int
  dig_p1 : Nat
  dig_p2 : Int
  dig_p3 : Int
  dig_p4 : Int
  dig_p5 : Int
  dig_p6 : Int
  dig_p7 : Int
  dig_p8 : Int
  dig_p9 : Int

/-- The two 20-bit raw ADC readings, stored into int32_t out-parameters
by bmp280_read_raw. -/
structure RawSample where
  temp : Int
  pressure : Int

-- Register map constants from the source file.

/-- Register address of the config register. -/
def REG_CONFIG : Nat := 0xF5

/-- Register address of the ctrl_meas register. -/
def REG_CTRL_MEAS : Nat := 0xF4

/-- Register address of the reset register. -/
def REG_RESET : Nat := 0xE0

/-- Register address of the temperature XLSB ADC register. -/
def REG_TEMP_XLSB : Nat := 0xFC

/-- Register address of the temperature LSB ADC register. -/
def REG_TEMP_LSB : Nat := 0xFB

/-- Register address of the temperature MSB ADC register. -/
def REG_TEMP_MSB : Nat := 0xFA

/-- Register address of the pressure XLSB ADC register. -/
def REG_PRESSURE_XLSB : Nat := 0xF9

/-- Register address of the pressure LSB ADC register. -/
def REG_PRESSURE_LSB : Nat := 0xF8

/-- Register address of the pressure MSB ADC register. -/
def REG_PRESSURE_MSB : Nat := 0xF7

/-- Calibration register addresses, 0x88 (dig_t1 LSB) through 0x9F
(dig_p9 MSB), exactly as declared in the source. -/
def REG_DIG_T1_LSB : Nat := 0x88

/-- Calibration register address. -/
def REG_DIG_T1_MSB : Nat := 0x89

/-- Calibration register address. -/
def REG_DIG_T2_LSB : Nat := 0x8A

/-- Calibration register address. -/
def REG_DIG_T2_MSB : Nat := 0x8B

/-- Calibration register address. -/
def REG_DIG_T3_LSB : Nat := 0x8C

/-- Calibration register address. -/
def REG_DIG_T3_MSB : Nat := 0x8D

/-- Calibration register address. -/
def REG_DIG_P1_LSB : Nat := 0x8E

/-- Calibration register address. -/
def REG_DIG_P1_MSB : Nat := 0x8F

/-- Calibration register address. -/
def REG_DIG_P2_LSB : Nat := 0x90

/-- Calibration register address. -/
def REG_DIG_P2_MSB : Nat := 0x91

/-- Calibration register address. -/
def REG_DIG_P3_LSB : Nat := 0x92

/-- Calibration register address. -/
def REG_DIG_P3_MSB : Nat := 0x93

/-- Calibration register address. -/
def REG_DIG_P4_LSB : Nat := 0x94

/-- Calibration register address. -/
def REG_DIG_P4_MSB : Nat := 0x95

/-- Calibration register address. -/
def REG_DIG_P5_LSB : Nat := 0x96

/-- Calibration register address. -/
def REG_DIG_P5_MSB : Nat := 0x97

/-- Calibration register address. -/
def REG_DIG_P6_LSB : Nat := 0x98

/-- Calibration register address. -/
def REG_DIG_P6_MSB : Nat := 0x99

/-- Calibration register address. -/
def REG_DIG_P7_LSB : Nat := 0x9A

/-- Calibration register address. -/
def REG_DIG_P7_MSB : Nat := 0x9B

/-- Calibration register address. -/
def REG_DIG_P8_LSB : Nat := 0x9C

/-- Calibration register address. -/
def REG_DIG_P8_MSB : Nat := 0x9D

/-- Calibration register address. -/
def REG_DIG_P9_LSB : Nat := 0x9E

/-- Calibration register address. -/
def REG_DIG_P9_MSB : Nat := 0x9F

/-- The config byte written by bmp280_init:
((0x04 << 5) | (0x05 << 2)) & 0xFC (500 ms standby, x16 filter,
reserved bit 0 kept clear by the mask). -/
def reg_config_val : Nat := ((0x04 <<< 5) ||| (0x05 <<< 2)) &&& 0xFC

/-- The ctrl_meas byte written by bmp280_init:
(0x01 << 5) | (0x03 << 2) | 0x03 (osrs_t x1, osrs_p x4, normal mode). -/
def reg_ctrl_meas_val : Nat := (0x01 <<< 5) ||| (0x03 <<< 2) ||| 0x03

/-- The register/value pairs written by bmp280_init, in program order.
Each i2c_write_blocking call in the source sends buf[0] = register,
buf[1] = value. -/
def bmp280_init_writes : List (Nat × Nat) :=
  [(REG_CONFIG, reg_config_val), (REG_CTRL_MEAS, reg_ctrl_meas_val)]

/-- bmp280_read_raw, decoding part: given the 6 bytes read from
registers 0xF7 through 0xFC, store the two 20-bit readings:
pressure = (buf[0] << 12) | (buf[1] << 4) | (buf[2] >> 4) and
temp = (buf[3] << 12) | (buf[4] << 4) | (buf[5] >> 4), both assigned
into int32_t containers. -/
def bmp280_read_raw (buf : Fin 6 → Fin 256) : RawSample :=
  { pressure := ((((buf 0).val <<< 12) ||| ((buf 1).val <<< 4) ||| ((buf 2).val >>> 4) : Nat) : Int)
    temp := ((((buf 3).val <<< 12) ||| ((buf 4).val <<< 4) ||| ((buf 5).val >>> 4) : Nat) : Int) }

/-- bmp280_get_calib_params, decoding part: given the 24 bytes read
from registers 0x88 through 0x9F, build the coefficient struct.  Each
pair is combined as (buf[2n+1] << 8) | buf[2n].  For the unsigned
fields the C code computes (uint16_t)(msb << 8) | lsb into a uint16_t;
for byte inputs this is exactly (msb << 8) | lsb.  For the signed
fields it computes (int16_t)(msb << 8) | lsb into an int16_t; for byte
inputs (the low 8 bits of msb << 8 are zero and lsb < 256, so the
bitwise or on the sign-extended intermediate adds the disjoint low
byte) this is exactly the int16_t reinterpretation of
(msb << 8) | lsb, i.e. toI16 applied to that 16-bit pattern. -/
def bmp280_get_calib_params (buf : Fin 24 → Fin 256) : bmp280_calib_param :=
  { dig_t1 := ((buf 1).val <<< 8) ||| (buf 0).val
    dig_t2 := toI16 (((buf 3).val <<< 8) ||| (buf 2).val)
    dig_t3 := toI16 (((buf 5).val <<< 8) ||| (buf 4).val)
    dig_p1 := ((buf 7).val <<< 8) ||| (buf 6).val
    dig_p2 := toI16 (((buf 9).val <<< 8) ||| (buf 8).val)
    dig_p3 := toI16 (((buf 11).val <<< 8) ||| (buf 10).val)
    dig_p4 := toI16 (((buf 13).val <<< 8) ||| (buf 12).val)
    dig_p5 := toI16 (((buf 15).val <<< 8) ||| (buf 14).val)
    dig_p6 := toI16 (((buf 17).val <<< 8) ||| (buf 16).val)
    dig_p7 := toI16 (((buf 19).val <<< 8) ||| (buf 18).val)
    dig_p8 := toI16 (((buf 21).val <<< 8) ||| (buf 20).val)
    dig_p9 := toI16 (((buf 23).val <<< 8) ||| (buf 22).val) }

/-- bmp280_convert: the shared fine-resolution temperature.  Direct
transcription of the source body, with the value of the dereferenced
temp pointer as input.  Every int32_t operation wraps mod 2^32 and
every right shift is arithmetic. -/
def bmp280_convert (temp : Int) (params : bmp280_calib_param) : Int :=
  let var1 := asr (wrap32 (wrap32 (asr temp 3 - wrap32 (params.dig_t1 * 2)) * params.dig_t2)) 11
  let var2 := asr (wrap32 (asr (wrap32 (wrap32 (asr temp 4 - params.dig_t1) *
      wrap32 (asr temp 4 - params.dig_t1))) 12 * params.dig_t3)) 14
  wrap32 (var1 + var2)

/-- bmp280_convert_temp as the source intends it: t_fine from
bmp280_convert on the raw temperature, then (t_fine * 5 + 128) >> 8.
The source line actually passes the addresses of its own pointer
parameters (bmp280_convert(&temp, &params), an int32_t** where an
int32_t* is expected); this embedding models the intended well-typed
call bmp280_convert(temp, params) that the surrounding code and the
datasheet formula call for. -/
def bmp280_convert_temp (temp : Int) (params : bmp280_calib_param) : Int :=
  let t_fine := bmp280_convert temp params
  asr (wrap32 (wrap32 (t_fine * 5) + 128)) 8

/-- First value taken by var1 in bmp280_convert_pressure:
(t_fine >> 1) - 64000. -/
def pressure_var1_init (t_fine : Int) : Int := wrap32 (asr t_fine 1 - 64000)

/-- Value of var2 in bmp280_convert_pressure just before the zero
test, following the three var2 assignments of the source. -/
def pressure_var2 (t_fine : Int) (params : bmp280_calib_param) : Int :=
  let v := pressure_var1_init t_fine
  let var2 := wrap32 (asr (wrap32 (asr v 2 * asr v 2)) 11 * params.dig_p6)
  let var2 := wrap32 (var2 + wrap32 (wrap32 (v * params.dig_p5) * 2))
  wrap32 (asr var2 2 + wrap32 (params.dig_p4 * 65536))

/-- Value of var1 in bmp280_convert_pressure at the zero test, i.e.
after var1 = ((32768 + var1) * dig_p1) >> 15. -/
def pressure_var1 (t_fine : Int) (params : bmp280_calib_param) : Int :=
  let v := pressure_var1_init t_fine
  let var1 := asr (wrap32 (asr (wrap32 (params.dig_p3 * asr (wrap32 (asr v 2 * asr v 2)) 13)) 3 +
      asr (wrap32 (params.dig_p2 * v)) 1)) 18
  asr (wrap32 (wrap32 (32768 + var1) * params.dig_p1)) 15

/-- bmp280_convert_pressure as the source intends it (like
bmp280_convert_temp, the source passes &temp and &params to
bmp280_convert; this models the intended well-typed call).  The result
is the final uint32_t value of the local variable converted; the only
division in the pipeline is embedded as u32div, so the function
returns none exactly when C would divide by zero. -/
def bmp280_convert_pressure (pressure temp : Int) (params : bmp280_calib_param) : Option Nat :=
  let t_fine := bmp280_convert temp params
  let var1 := pressure_var1 t_fine params
  let var2 := pressure_var2 t_fine params
  if var1 = 0 then
    some 0
  else
    let converted := (u32sub (toU32 (wrap32 (1048576 - pressure))) (toU32 (asr var2 12)) * 3125) % 4294967296
    let q := if converted < 2147483648 then
        u32div ((converted <<< 1) % 4294967296) (toU32 var1)
      else
        (u32div converted (toU32 var1)).map (fun r => r * 2 % 4294967296)
    q.map (fun c =>
      let v1 := asr (wrap32 (params.dig_p9 * toI32 ((((c >>> 3) * (c >>> 3)) % 4294967296) >>> 13))) 12
      let v2 := asr (wrap32 (toI32 (c >>> 2) * params.dig_p8)) 13
      toU32 (wrap32 (toI32 c + asr (wrap32 (wrap32 (v1 + v2) + params.dig_p7)) 4)))

/-- The calibration set of the BMP280 datasheet worked example
(section 3.12 of the datasheet the source comments point to). -/
def datasheetCalib : bmp280_calib_param :=
  { dig_t1 := 27504, dig_t2 := 26435, dig_t3 := -1000,
    dig_p1 := 36477, dig_p2 := -10685, dig_p3 := 3024, dig_p4 := 2855,
    dig_p5 := 140, dig_p6 := -7, dig_p7 := 15500, dig_p8 := -14600, dig_p9 := 6000 }

/-- The datasheet calibration with dig_p1 forced to zero, which drives
the pressure-pipeline var1 to zero. -/
def degenerateCalib : bmp280_calib_param :=
  { datasheetCalib with dig_p1 := 0 }

/-- Sample raw buffer from the specification: bytes
[0xAB, 0xCD, 0xE0, 0x12, 0x34, 0x50]. -/
def sampleRaw : Fin 6 → Fin 256 := ![0xAB, 0xCD, 0xE0, 0x12, 0x34, 0x50]

/-- All-high calibration buffer used to exercise the negative branch
of the signed coefficient decoding. -/
def negBuf : Fin 24 → Fin 256 := fun _ => 255

-- Device Controller model (spec section 4.5).

/-- Modelled from the spec: the two error kinds of section 7, BusError
for transport failures and UninitializedError for protocol-ordering
violations.  The source has no error type at all (its main calls the
operations in a fixed order), so this component is taken from the
specification text. -/
inductive DevError where
  | UninitializedError
  | BusError

/-- Modelled from the spec: a bus transaction as seen by the Device
Controller (a register write with payload and a hold flag, or a read
of a byte count). -/
inductive BusOp where
  | write (reg : Nat) (payload : List Nat) (hold : Bool)
  | read (count : Nat)

/-- Modelled from the spec: Device Controller state, tracking whether
configuration has happened and the cached calibration snapshot. -/
structure DevState where
  configured : Bool
  calib : Option bmp280_calib_param

/-- Modelled from the spec: the poll operation of the Device
Controller (spec section 4.5).  It requires calibration to be present;
called before calibrate it fails with UninitializedError and issues no
bus transaction.  Otherwise it performs the sample read transaction
(register-select write of 0xF7 holding the bus, then a 6-byte read)
and runs the Compensation Engine. -/
def poll (s : DevState) (raw : Fin 6 → Fin 256) :
    Except DevError (Int × Option Nat) × List BusOp :=
  match s.calib with
  | none => (Except.error DevError.UninitializedError, [])
  | some params =>
      let sample := bmp280_read_raw raw
      (Except.ok (bmp280_convert_temp sample.temp params,
          bmp280_convert_pressure sample.pressure sample.temp params),
        [BusOp.write REG_PRESSURE_MSB [] true, BusOp.read 6])

-- Shared helper lemmas.

theorem lor_lt_size {n x y : Nat} (hx : x < 2 ^ n) (hy : y < 2 ^ n) : x ||| y < 2 ^ n := by
  have h := Nat.bitwise_lt (f := or) hx hy
  simpa [Nat.lor] using h

theorem asr15_wrap32_bounds (x : Int) :
    -65536 ≤ asr (wrap32 x) 15 ∧ asr (wrap32 x) 15 < 65536 := by
  simp only [asr, wrap32]
  norm_num
  omega

theorem pressure_var1_bounds (t : Int) (p : bmp280_calib_param) :
    -65536 ≤ pressure_var1 t p ∧ pressure_var1 t p < 65536 := by
  simp only [pressure_var1]
  exact asr15_wrap32_bounds _

theorem map_total (o : Option Nat) (f : Nat → Nat) (h : ∃ x, o = some x) :
    ∃ r, o.map f = some r := by
  rcases h with ⟨x, hx⟩
  exact ⟨f x, by rw [hx]; rfl⟩

theorem toI16_neg_of_msb {m l : Nat} (hm : m < 256) (hl : l < 256) (hmsb : 128 ≤ m) :
    toI16 ((m <<< 8) ||| l) < 0 := by
  have hup : (m <<< 8) ||| l < 65536 := by
    have h1 : m <<< 8 < 2 ^ 16 := by rw [Nat.shiftLeft_eq]; norm_num; omega
    have h2 : l < 2 ^ 16 := by norm_num; omega
    exact lor_lt_size (n := 16) h1 h2
  have h7 : m.testBit 7 = true := by
    rw [Nat.testBit_to_div_mod]
    simp
    omega
  have hl15 : l.testBit 15 = false := by
    have h15 : (2 : Nat) ^ 15 = 32768 := by norm_num
    exact Nat.testBit_eq_false_of_lt (by omega)
  have hbit : ((m <<< 8) ||| l).testBit 15 = true := by
    rw [Nat.testBit_lor, Nat.testBit_shiftLeft]
    norm_num
    simp [h7]
  have hge : 32768 ≤ (m <<< 8) ||| l := by
    rw [Nat.testBit_to_div_mod] at hbit
    simp at hbit
    omega
  simp only [toI16]
  omega

theorem decode20_lt {a b c : Nat} (ha : a < 256) (hb : b < 256) (hc : c < 256) :
    (a <<< 12) ||| (b <<< 4) ||| (c >>> 4) < 1048576 := by
  have e12 : (2 : Nat) ^ 12 = 4096 := by norm_num
  have e4 : (2 : Nat) ^ 4 = 16 := by norm_num
  have e20 : (2 : Nat) ^ 20 = 1048576 := by norm_num
  have h1 : a <<< 12 < 2 ^ 20 := by rw [Nat.shiftLeft_eq]; omega
  have h2 : b <<< 4 < 2 ^ 20 := by rw [Nat.shiftLeft_eq]; omega
  have h3 : c >>> 4 < 2 ^ 20 := by rw [Nat.shiftRight_eq_div_pow]; omega
  have := lor_lt_size (n := 20) (lor_lt_size (n := 20) h1 h2) h3
  omega

-- Claim theorems.

/-- Claim C1: for every raw temperature value and every calibration
parameter set, bmp280_convert returns exactly v1 + v2 where
v1 = ((raw_t >> 3) - (t1 << 1)) * t2 >> 11 and
v2 = (((raw_t >> 4) - t1) * ((raw_t >> 4) - t1) >> 12) * t3 >> 14,
with all shifts arithmetic on signed 32-bit values and every
operation wrapping as twos-complement 32-bit. -/
theorem bmp280_convert_formula (raw_t : Int) (p : bmp280_calib_param) :
    bmp280_convert raw_t p =
      wrap32 (asr (wrap32 (wrap32 (asr raw_t 3 - wrap32 (p.dig_t1 * 2)) * p.dig_t2)) 11 +
        asr (wrap32 (asr (wrap32 (wrap32 (asr raw_t 4 - p.dig_t1) *
          wrap32 (asr raw_t 4 - p.dig_t1))) 12 * p.dig_t3)) 14) :=
  rfl

/-- Claim C2 (code-bug evidence): on the datasheet worked example
(raw temperature 519888 with the datasheet calibration) the intended
pipeline gives t_fine = 128422 and the conversion
(t_fine * 5 + 128) >> 8 gives 2508 hundredths of a degree Celsius,
matching the datasheet.  The source bmp280_convert_temp never feeds
the raw temperature into bmp280_convert: it passes the addresses of
its own pointer parameters (an int32_t** where an int32_t* is
expected), so its t_fine is derived from a pointer bit pattern. -/
theorem bmp280_convert_temp_datasheet :
    bmp280_convert 519888 datasheetCalib = 128422 ∧
    bmp280_convert_temp 519888 datasheetCalib = 2508 := by
  decide

/-- Claim C3 (code-bug evidence): on the datasheet worked example
(raw pressure 415148, raw temperature 519888, datasheet calibration)
the intended pressure pipeline returns 100656, with no division by
zero.  The source bmp280_convert_pressure has the same miscall as
bmp280_convert_temp (it passes &temp and &params to bmp280_convert),
so its fine temperature is not computed from the raw temperature. -/
theorem bmp280_convert_pressure_datasheet :
    bmp280_convert_pressure 415148 519888 datasheetCalib = some 100656 := by
  decide

/-- Claim C4: whenever the pressure-pipeline var1 at the zero test
equals zero, bmp280_convert_pressure returns exactly zero, as an
ordinary some result: no error is signalled to the caller. -/
theorem bmp280_convert_pressure_zero_guard (pressure temp : Int) (params : bmp280_calib_param)
    (h : pressure_var1 (bmp280_convert temp params) params = 0) :
    bmp280_convert_pressure pressure temp params = some 0 := by
  simp only [bmp280_convert_pressure]
  rw [if_pos h]

/-- Witness for claim C4: the datasheet raw sample with dig_p1 forced
to zero drives var1 to zero and the function returns some 0. -/
theorem bmp280_convert_pressure_zero_guard_witness :
    bmp280_convert_pressure 415148 519888 degenerateCalib = some 0 :=
  bmp280_convert_pressure_zero_guard 415148 519888 degenerateCalib (by decide)

/-- Claim C5: the compensation arithmetic is total on the full domain:
for every raw pressure, raw temperature and calibration set the
pipeline produces a value and never reaches a division by zero (the
embedded division returns none exactly when its divisor is zero, and
the var1 = 0 early return guards the only division). -/
theorem bmp280_convert_pressure_total (pressure temp : Int) (params : bmp280_calib_param) :
    ∃ r, bmp280_convert_pressure pressure temp params = some r := by
  simp only [bmp280_convert_pressure]
  by_cases h : pressure_var1 (bmp280_convert temp params) params = 0
  · exact ⟨0, by rw [if_pos h]⟩
  · rw [if_neg h]
    have hb := pressure_var1_bounds (bmp280_convert temp params) params
    have hne : toU32 (pressure_var1 (bmp280_convert temp params) params) ≠ 0 := by
      simp only [toU32]
      omega
    apply map_total
    simp only [u32div, if_neg hne, Option.map_some']
    split
    · exact ⟨_, rfl⟩
    · exact ⟨_, rfl⟩

/-- Claim C6: the calibration decoder combines bytes 2n (LSB) and
2n+1 (MSB) as (MSB << 8) | LSB for each coefficient, reinterpreting
dig_t1 and dig_p1 as unsigned 16-bit and dig_t2, dig_t3 and dig_p2
through dig_p9 as signed twos-complement 16-bit, so a signed
coefficient whose MSB has its high bit set decodes negative. -/
theorem bmp280_get_calib_params_decode (buf : Fin 24 → Fin 256) :
    (bmp280_get_calib_params buf).dig_t1 = (((buf 1).val <<< 8) ||| (buf 0).val : Nat) ∧
    (bmp280_get_calib_params buf).dig_t2 = toI16 (((buf 3).val <<< 8) ||| (buf 2).val) ∧
    (bmp280_get_calib_params buf).dig_t3 = toI16 (((buf 5).val <<< 8) ||| (buf 4).val) ∧
    (bmp280_get_calib_params buf).dig_p1 = (((buf 7).val <<< 8) ||| (buf 6).val : Nat) ∧
    (bmp280_get_calib_params buf).dig_p2 = toI16 (((buf 9).val <<< 8) ||| (buf 8).val) ∧
    (bmp280_get_calib_params buf).dig_p3 = toI16 (((buf 11).val <<< 8) ||| (buf 10).val) ∧
    (bmp280_get_calib_params buf).dig_p4 = toI16 (((buf 13).val <<< 8) ||| (buf 12).val) ∧
    (bmp280_get_calib_params buf).dig_p5 = toI16 (((buf 15).val <<< 8) ||| (buf 14).val) ∧
    (bmp280_get_calib_params buf).dig_p6 = toI16 (((buf 17).val <<< 8) ||| (buf 16).val) ∧
    (bmp280_get_calib_params buf).dig_p7 = toI16 (((buf 19).val <<< 8) ||| (buf 18).val) ∧
    (bmp280_get_calib_params buf).dig_p8 = toI16 (((buf 21).val <<< 8) ||| (buf 20).val) ∧
    (bmp280_get_calib_params buf).dig_p9 = toI16 (((buf 23).val <<< 8) ||| (buf 22).val) ∧
    (128 ≤ (buf 3).val → (bmp280_get_calib_params buf).dig_t2 < 0) ∧
    (128 ≤ (buf 23).val → (bmp280_get_calib_params buf).dig_p9 < 0) :=
  ⟨rfl, rfl, rfl, rfl, rfl, rfl, rfl, rfl, rfl, rfl, rfl, rfl,
   fun h => toI16_neg_of_msb (buf 3).isLt (buf 2).isLt h,
   fun h => toI16_neg_of_msb (buf 23).isLt (buf 22).isLt h⟩

/-- Witness for claim C6: on the all-0xFF calibration buffer both
sign-bit hypotheses hold and the signed coefficients decode negative
(each 16-bit pattern 0xFFFF decodes to -1). -/
theorem bmp280_get_calib_params_decode_witness :
    (bmp280_get_calib_params negBuf).dig_t2 < 0 ∧
    (bmp280_get_calib_params negBuf).dig_p9 < 0 :=
  ⟨(bmp280_get_calib_params_decode negBuf).2.2.2.2.2.2.2.2.2.2.2.2.1 (by decide),
   (bmp280_get_calib_params_decode negBuf).2.2.2.2.2.2.2.2.2.2.2.2.2 (by decide)⟩

/-- Claim C7: the raw-sample decoder computes
pressure = (byte0 << 12) | (byte1 << 4) | (byte2 >> 4) and
temperature by the same pattern over bytes 3 to 5, and on the buffer
[0xAB, 0xCD, 0xE0, 0x12, 0x34, 0x50] yields exactly
(0xAB << 12) | (0xCD << 4) | (0xE0 >> 4) and
(0x12 << 12) | (0x34 << 4) | (0x50 >> 4). -/
theorem bmp280_read_raw_decode :
    (∀ buf : Fin 6 → Fin 256,
      (bmp280_read_raw buf).pressure =
        ((((buf 0).val <<< 12) ||| ((buf 1).val <<< 4) ||| ((buf 2).val >>> 4) : Nat) : Int) ∧
      (bmp280_read_raw buf).temp =
        ((((buf 3).val <<< 12) ||| ((buf 4).val <<< 4) ||| ((buf 5).val >>> 4) : Nat) : Int)) ∧
    (bmp280_read_raw sampleRaw).pressure =
      (((0xAB <<< 12) ||| (0xCD <<< 4) ||| (0xE0 >>> 4) : Nat) : Int) ∧
    (bmp280_read_raw sampleRaw).temp =
      (((0x12 <<< 12) ||| (0x34 <<< 4) ||| (0x50 >>> 4) : Nat) : Int) :=
  ⟨fun _ => ⟨rfl, rfl⟩, by decide, by decide⟩

/-- Claim C8: every register-map constant equals the value the
specification lists (calibration 0x88 through 0x9F, ADC 0xF7 through
0xFC, ctrl_meas 0xF4, config 0xF5, reset 0xE0) and bmp280_init writes
exactly the byte 0b10010100 to the config register followed by
0b00101111 to the ctrl_meas register. -/
theorem bmp280_register_map_values :
    REG_DIG_T1_LSB = 0x88 ∧ REG_DIG_T1_MSB = 0x89 ∧ REG_DIG_T2_LSB = 0x8A ∧
    REG_DIG_T2_MSB = 0x8B ∧ REG_DIG_T3_LSB = 0x8C ∧ REG_DIG_T3_MSB = 0x8D ∧
    REG_DIG_P1_LSB = 0x8E ∧ REG_DIG_P1_MSB = 0x8F ∧ REG_DIG_P2_LSB = 0x90 ∧
    REG_DIG_P2_MSB = 0x91 ∧ REG_DIG_P3_LSB = 0x92 ∧ REG_DIG_P3_MSB = 0x93 ∧
    REG_DIG_P4_LSB = 0x94 ∧ REG_DIG_P4_MSB = 0x95 ∧ REG_DIG_P5_LSB = 0x96 ∧
    REG_DIG_P5_MSB = 0x97 ∧ REG_DIG_P6_LSB = 0x98 ∧ REG_DIG_P6_MSB = 0x99 ∧
    REG_DIG_P7_LSB = 0x9A ∧ REG_DIG_P7_MSB = 0x9B ∧ REG_DIG_P8_LSB = 0x9C ∧
    REG_DIG_P8_MSB = 0x9D ∧ REG_DIG_P9_LSB = 0x9E ∧ REG_DIG_P9_MSB = 0x9F ∧
    REG_PRESSURE_MSB = 0xF7 ∧ REG_PRESSURE_LSB = 0xF8 ∧ REG_PRESSURE_XLSB = 0xF9 ∧
    REG_TEMP_MSB = 0xFA ∧ REG_TEMP_LSB = 0xFB ∧ REG_TEMP_XLSB = 0xFC ∧
    REG_CTRL_MEAS = 0xF4 ∧ REG_CONFIG = 0xF5 ∧ REG_RESET = 0xE0 ∧
    bmp280_init_writes = [(0xF5, 0b10010100), (0xF4, 0b00101111)] := by
  decide

/-- Claim C9: in the Device Controller model taken from the
specification, every poll issued while no calibration is cached fails
with UninitializedError (an error distinct from BusError) and issues
no bus transaction at all. -/
theorem poll_uninitialized (s : DevState) (raw : Fin 6 → Fin 256) (h : s.calib = none) :
    poll s raw = (Except.error DevError.UninitializedError, []) ∧
    DevError.UninitializedError ≠ DevError.BusError := by
  refine ⟨?_, fun hc => DevError.noConfusion hc⟩
  simp [poll, h]

/-- Witness for claim C9: polling the freshly created, uncalibrated
controller state fails with UninitializedError and an empty bus
trace. -/
theorem poll_uninitialized_witness :
    poll { configured := false, calib := none } (fun _ => 0) =
      (Except.error DevError.UninitializedError, []) ∧
    DevError.UninitializedError ≠ DevError.BusError :=
  poll_uninitialized { configured := false, calib := none } (fun _ => 0) rfl

/-- Claim C10: for every 6-byte buffer the decoded raw pressure and
raw temperature lie between 0 and 2^20 - 1 inclusive; in particular
neither value is ever negative in its int32_t container. -/
theorem bmp280_read_raw_range (buf : Fin 6 → Fin 256) :
    0 ≤ (bmp280_read_raw buf).pressure ∧ (bmp280_read_raw buf).pressure < 1048576 ∧
    0 ≤ (bmp280_read_raw buf).temp ∧ (bmp280_read_raw buf).temp < 1048576 := by
  have hp := decode20_lt (buf 0).isLt (buf 1).isLt (buf 2).isLt
  have ht := decode20_lt (buf 3).isLt (buf 4).isLt (buf 5).isLt
  simp only [bmp280_read_raw]
  refine ⟨Int.natCast_nonneg _, ?_, Int.natCast_nonneg _, ?_⟩
  · exact_mod_cast hp
  · exact_mod_cast ht
